import Mathlib

/-!
Shallow embedding of the bindy DNS-operator reconciliation engine
(Python sources under `operator/`), together with theorems checking the
natural-language specification against the code.

Conventions of the embedding:
* Python dict-based specs become structures with `Option` fields
  (`none` = key absent).
* A Python function that may `raise` becomes a Lean function returning
  `Except PyExn _` (or `Except String _` for the validators, whose only
  exception type is `ValueError msg`).
* The ambient clock read by `datetime.now().strftime("%Y%m%d01")` is an
  explicit `Int` parameter `nowSerial`.
* Calls into the external Kubernetes store are modelled by explicit
  outcome parameters (`CreateOutcome`) describing what the store call
  would have raised, and handlers additionally record the store
  operations they attempt as a list of `EngineAction`s.
-/

namespace Bindy

/-! ## Python value helpers -/

/-- Python truthiness of an optional string: `None` and `""` are falsy. -/
def pyTruthy : Option String → Bool
  | none => false
  | some s => s ≠ ""

/-- Rendering of an optional string inside a Python f-string:
`None` renders as `"None"`. -/
def pyFStr : Option String → String
  | none => "None"
  | some s => s

/-! ## Validator (`operator/utils/validation.py`) -/

/-- Record spec: the union of the fields the registered validators read,
plus the `zone` reference used by the record handler. `none` = key absent. -/
structure RecordSpec where
  ipv4Address : Option String := none
  ipv6Address : Option String := none
  target : Option String := none
  priority : Option Int := none
  mailServer : Option String := none
  zone : Option String := none
deriving DecidableEq

/-- Digit test of the regex class `\d` (ASCII digits). -/
def isReDigit (c : Char) : Bool := c.isDigit

/-- Matcher for the tail of the Python regex `^(\d{1,3}\.){3}\d{1,3}$`
under `re.match` semantics. `n` counts the remaining `\d{1,3}\.` groups;
after them one final `\d{1,3}` must be followed by the end of the string
(`$` also matches just before one trailing newline). Greedy matching with
backtracking over `\d{1,3}` followed by a non-digit is equivalent to
requiring the maximal digit run to have length 1–3. -/
def matchOctets : Nat → List Char → Bool
  | n, cs =>
    let run := cs.takeWhile isReDigit
    let rest := cs.dropWhile isReDigit
    if run.length < 1 || 3 < run.length then false
    else
      match n with
      | 0 => rest.isEmpty || rest == ['\n']
      | n + 1 =>
        match rest with
        | '.' :: rest2 => matchOctets n rest2
        | _ => false

/-- Embedding of `re.match(r"^(\d{1,3}\.){3}\d{1,3}$", s)` viewed as a
Boolean (match object truthiness). -/
def reMatchIpv4 (s : String) : Bool := matchOctets 3 s.data

/-- Embedding of `validate_a_record`: raises `ValueError` when the
`ipv4Address` field is falsy or fails the regex. -/
def validate_a_record (spec : RecordSpec) : Except String Unit :=
  let ipv4 := spec.ipv4Address
  if !pyTruthy ipv4 then
    .error ("Invalid IPv4 address: " ++ pyFStr ipv4)
  else if reMatchIpv4 (pyFStr ipv4) then
    .ok ()
  else
    .error ("Invalid IPv4 address: " ++ pyFStr ipv4)

/-- Embedding of `validate_aaaa_record`: requires a truthy `ipv6Address`. -/
def validate_aaaa_record (spec : RecordSpec) : Except String Unit :=
  if !pyTruthy spec.ipv6Address then .error "IPv6 address required"
  else .ok ()

/-- Embedding of `validate_cname_record`: requires a truthy `target`. -/
def validate_cname_record (spec : RecordSpec) : Except String Unit :=
  if !pyTruthy spec.target then .error "Target required for CNAME"
  else .ok ()

/-- Embedding of `validate_mx_record`: requires the keys `priority` and
`mailServer` to be present (presence, not truthiness). -/
def validate_mx_record (spec : RecordSpec) : Except String Unit :=
  if spec.priority.isNone || spec.mailServer.isNone then
    .error "Priority and mailServer required for MX record"
  else .ok ()

/-- Embedding of `validators.get(record_type)` in `validate_dns_record`:
the lookup in the four-entry dict of registered checks. -/
def validators (record_type : String) :
    Option (RecordSpec → Except String Unit) :=
  if record_type = "A" then some validate_a_record
  else if record_type = "AAAA" then some validate_aaaa_record
  else if record_type = "CNAME" then some validate_cname_record
  else if record_type = "MX" then some validate_mx_record
  else none

/-- Embedding of `validate_dns_record`: dispatch on the record type; a
type with no registered validator passes without any check. -/
def validate_dns_record (record_type : String) (spec : RecordSpec) :
    Except String Unit :=
  match validators record_type with
  | some v => v spec
  | none => .ok ()

/-! ## Config synthesizer (`operator/config/templates.py`, `operator/config/bind9.py`) -/

/-- DNSSEC sub-object of the instance config. -/
structure DnssecConfig where
  enabled : Option Bool := none
deriving DecidableEq

/-- The `config` sub-object of an Instance spec. -/
structure InstanceConfig where
  allowQuery : Option (List String) := none
  allowTransfer : Option (List String) := none
  recursion : Option Bool := none
  dnssec : Option DnssecConfig := none
deriving DecidableEq

/-- Instance spec (`bind9instances` custom resource). -/
structure InstanceSpec where
  replicas : Option Int := none
  version : Option String := none
  config : Option InstanceConfig := none
deriving DecidableEq

/-- SOA sub-object of a Zone spec. -/
structure SoaRecord where
  primaryNS : Option String := none
  adminEmail : Option String := none
  serial : Option Int := none
  refresh : Option Int := none
  retry : Option Int := none
  expire : Option Int := none
  negativeTTL : Option Int := none
deriving DecidableEq

/-- Zone spec (`dnszones` custom resource). -/
structure ZoneSpec where
  zoneName : Option String := none
  ttl : Option Int := none
  soaRecord : Option SoaRecord := none
  bind9InstanceRef : Option String := none
deriving DecidableEq

/-- Embedding of `BIND9_CONFIG_TEMPLATE.format(...)`: the template string
with the five placeholders substituted (Python `{{`/`}}` unescaped to
literal braces, written `\x7b`/`\x7d` here). -/
def BIND9_CONFIG_TEMPLATE (instance_name allow_query allow_transfer
    recursion dnssec_validation : String) : String :=
  "\n// Generated BIND9 configuration for " ++ instance_name ++
  "\noptions \x7b\n    directory \"/var/lib/bind\";\n    listen-on \x7b any; \x7d;\n    listen-on-v6 \x7b any; \x7d;\n\n    allow-query \x7b " ++
  allow_query ++
  "; \x7d;\n    allow-transfer \x7b " ++
  allow_transfer ++
  "; \x7d;\n    recursion " ++
  recursion ++
  ";\n\n    dnssec-validation " ++
  dnssec_validation ++
  ";\n\n    version none;\n    hostname none;\n    server-id none;\n\x7d;\n\nlogging \x7b\n    channel default_log \x7b\n        file \"/var/log/bind/named.log\" versions 3 size 5m;\n        severity info;\n        print-time yes;\n        print-severity yes;\n        print-category yes;\n    \x7d;\n\n    category default \x7b default_log; \x7d;\n    category queries \x7b default_log; \x7d;\n\x7d;\n\ninclude \"/etc/bind/zones/*.conf\";\n"

/-- Embedding of `ZONE_FILE_TEMPLATE.format(...)` with the nine
placeholders substituted (numeric arguments already rendered by `str`). -/
def ZONE_FILE_TEMPLATE (zone_name ttl primary_ns admin_email serial
    refresh retry expire minimum : String) : String :=
  "\n$ORIGIN " ++ zone_name ++
  ".\n$TTL " ++ ttl ++
  "\n\n@ IN SOA " ++ primary_ns ++ " " ++ admin_email ++
  " (\n    " ++ serial ++
  "    ; Serial\n    " ++ refresh ++
  "   ; Refresh\n    " ++ retry ++
  "     ; Retry\n    " ++ expire ++
  "    ; Expire\n    " ++ minimum ++
  "   ; Negative TTL\n)\n\n; Records will be added here\n"

/-- Embedding of `generate_bind9_config` (`operator/config/bind9.py`):
defaults come from `.get` with `["any"]`, `["none"]`, `False`, `{}`. -/
def generate_bind9_config (spec : InstanceSpec) (instance_name ns : String) :
    String :=
  let config := spec.config.getD {}
  BIND9_CONFIG_TEMPLATE instance_name
    (String.intercalate " " (config.allowQuery.getD ["any"]))
    (String.intercalate " " (config.allowTransfer.getD ["none"]))
    (if config.recursion.getD false then "yes" else "no")
    (if (config.dnssec.getD {}).enabled.getD false then "auto" else "no")

/-- Embedding of Python's `str.replace(old, new)` specialized to
one-character `old` and `new` (the source's only use is
`.replace("@", ".")`): every occurrence of the character is replaced. -/
def pyReplaceChar (s : String) (old new : Char) : String :=
  ⟨s.data.map fun c => if c = old then new else c⟩

/-- Embedding of `generate_zone_file` (`operator/config/bind9.py`). The
Python body reads the ambient clock,
`int(datetime.now().strftime("%Y%m%d01"))`, as the default serial; that
clock value is the explicit parameter `nowSerial`. -/
def generate_zone_file (spec : ZoneSpec) (zone_name ns : String)
    (nowSerial : Int) : String :=
  let soa := spec.soaRecord.getD {}
  let serial := soa.serial.getD nowSerial
  ZONE_FILE_TEMPLATE zone_name
    (toString (spec.ttl.getD 3600))
    (soa.primaryNS.getD ("ns1." ++ zone_name ++ "."))
    (pyReplaceChar (soa.adminEmail.getD ("admin." ++ zone_name ++ ".")) '@' '.')
    (toString serial)
    (toString (soa.refresh.getD 3600))
    (toString (soa.retry.getD 600))
    (toString (soa.expire.getD 604800))
    (toString (soa.negativeTTL.getD 86400))

/-! ## Substring helper (Python `in` on strings) -/

/-- Scan of all suffixes of `s` for one starting with `pat`. -/
def containsSubAux (pat : List Char) : List Char → Bool
  | [] => pat.isEmpty
  | c :: cs => pat.isPrefixOf (c :: cs) || containsSubAux pat cs

/-- Embedding of Python's `pat in s` on strings. -/
def containsSubstring (s pat : String) : Bool := containsSubAux pat.data s.data

/-! ## Exceptions and store-call outcomes -/

/-- Python exception classes distinguished by the handlers:
`kubernetes.client.exceptions.ApiException` (with its HTTP status),
`ValueError`, and any other `Exception`. -/
inductive PyExn where
  | apiException (status : Int) (msg : String)
  | valueError (msg : String)
  | otherError (msg : String)
deriving DecidableEq

/-- Rendering `str(e)` of an exception. -/
def pyStrExn : PyExn → String
  | .apiException _ m => m
  | .valueError m => m
  | .otherError m => m

/-- Outcome of one call into the external store: it either returns or
raises an exception. -/
inductive CreateOutcome where
  | ok
  | exn (e : PyExn)
deriving DecidableEq

/-- Store outcomes for one upsert: the create call and the patch call
attempted on conflict. -/
structure UpsertOutcomes where
  createOut : CreateOutcome := .ok
  patchOut : CreateOutcome := .ok
deriving DecidableEq

/-- The kopf errors a handler raises to the scheduler:
`kopf.PermanentError` (never redelivered) and `kopf.TemporaryError`
(redelivered after `delay`). -/
inductive KopfError where
  | permanentError (msg : String)
  | temporaryError (msg : String) (delay : Int)
deriving DecidableEq

/-! ## Derived artifacts (`operator/kubernetes/resources.py`) -/

/-- Embedding of `V1OwnerReference`. -/
structure OwnerReference where
  apiVersion : String
  kind : String
  name : String
  uid : String
  controller : Option Bool := none
  blockOwnerDeletion : Option Bool := none
deriving DecidableEq

/-- Embedding of the `V1ConfigMap` payload built by `create_configmap`. -/
structure ConfigMapArtifact where
  name : String
  ns : String
  ownerReferences : List OwnerReference
  data : List (String × String)
deriving DecidableEq

/-- Volume of the StatefulSet pod template: volume name and the ConfigMap
it is sourced from. -/
structure VolumeSpec where
  name : String
  configMapName : String
deriving DecidableEq

/-- Container or service port. -/
structure PortSpec where
  port : Int
  protocol : String
  name : String
deriving DecidableEq

/-- Embedding of the `V1StatefulSet` payload built by
`create_bind9_statefulset`. -/
structure StatefulSetArtifact where
  name : String
  ns : String
  ownerReferences : List OwnerReference
  serviceName : String
  replicas : Int
  image : String
  selectorApp : String
  ports : List PortSpec
  volumeMounts : List (String × String)
  volumes : List VolumeSpec
deriving DecidableEq

/-- Embedding of the `V1Service` payload built by `create_bind9_services`. -/
structure ServiceArtifact where
  name : String
  ns : String
  ownerReferences : List OwnerReference
  selectorApp : String
  ports : List PortSpec
  svcType : String
deriving DecidableEq

/-- ConfigMap payload of `create_configmap`: name `<name>-<cm_type>`, one
owner reference of kind `Bind9Instance` with the caller's `name`/`uid`,
and the data key `<cm_type>.conf`. -/
def configmapArtifact (name ns data uid cm_type : String) :
    ConfigMapArtifact where
  name := name ++ "-" ++ cm_type
  ns := ns
  ownerReferences :=
    [{ apiVersion := "dns.example.com/v1alpha1", kind := "Bind9Instance",
       name := name, uid := uid }]
  data := [(cm_type ++ ".conf", data)]

/-- StatefulSet payload of `create_bind9_statefulset`. -/
def statefulsetArtifact (spec : InstanceSpec) (name ns uid : String) :
    StatefulSetArtifact where
  name := name ++ "-bind9"
  ns := ns
  ownerReferences :=
    [{ apiVersion := "dns.example.com/v1alpha1", kind := "Bind9Instance",
       name := name, uid := uid, controller := some true,
       blockOwnerDeletion := some true }]
  serviceName := name ++ "-headless"
  replicas := spec.replicas.getD 1
  image := spec.version.getD "internetsystemsconsortium/bind9:9.18"
  selectorApp := name ++ "-bind9"
  ports := [{ port := 53, protocol := "UDP", name := "dns-udp" },
            { port := 53, protocol := "TCP", name := "dns-tcp" }]
  volumeMounts := [("config", "/etc/bind"), ("zones", "/etc/bind/zones")]
  volumes := [{ name := "config", configMapName := name ++ "-config" },
              { name := "zones", configMapName := name ++ "-zones" }]

/-- Service payload of `create_bind9_services`. -/
def serviceArtifact (name ns uid : String) : ServiceArtifact where
  name := name ++ "-dns"
  ns := ns
  ownerReferences :=
    [{ apiVersion := "dns.example.com/v1alpha1", kind := "Bind9Instance",
       name := name, uid := uid }]
  selectorApp := name ++ "-bind9"
  ports := [{ port := 53, protocol := "UDP", name := "dns-udp" },
            { port := 53, protocol := "TCP", name := "dns-tcp" }]
  svcType := "LoadBalancer"

/-- Store operations the engine attempts, with their payloads, plus the
two stubbed side-calls (`reload_bind9_config`, `update_zone_file`). -/
inductive EngineAction where
  | createCM (a : ConfigMapArtifact)
  | patchCM (nm : String) (a : ConfigMapArtifact)
  | createSTS (a : StatefulSetArtifact)
  | patchSTS (nm : String) (a : StatefulSetArtifact)
  | createSvc (a : ServiceArtifact)
  | reloadBind9 (instanceName ns : String)
  | updateZoneFileOp (zoneRef : Option String) (ns recordName recordType : String)
deriving DecidableEq

/-! ## Resource applier (`operator/kubernetes/resources.py`) -/

/-- Embedding of `create_configmap`: attempt the create; on an
`ApiException` with status 409 patch the same `cm_name`; on an
`ApiException` with any other status the `except` clause matches but does
nothing, so the exception is swallowed; any non-`ApiException` exception
propagates. Returns the attempted store operations and the exception, if
any, that escapes. -/
def create_configmap (name ns data uid : String) (cm_type : String)
    (io : UpsertOutcomes) : List EngineAction × Except PyExn Unit :=
  let cm := configmapArtifact name ns data uid cm_type
  let cm_name := name ++ "-" ++ cm_type
  match io.createOut with
  | .ok => ([.createCM cm], .ok ())
  | .exn (.apiException status msg) =>
    if status = 409 then
      match io.patchOut with
      | .ok => ([.createCM cm, .patchCM cm_name cm], .ok ())
      | .exn e => ([.createCM cm, .patchCM cm_name cm], .error e)
    else ([.createCM cm], .ok ())
  | .exn e => ([.createCM cm], .error e)

/-- Embedding of `create_bind9_statefulset`: same upsert shape as
`create_configmap` (409 → patch `<name>-bind9`; other `ApiException`
swallowed; other exceptions propagate). -/
def create_bind9_statefulset (spec : InstanceSpec) (name ns uid : String)
    (io : UpsertOutcomes) : List EngineAction × Except PyExn Unit :=
  let sts := statefulsetArtifact spec name ns uid
  match io.createOut with
  | .ok => ([.createSTS sts], .ok ())
  | .exn (.apiException status msg) =>
    if status = 409 then
      match io.patchOut with
      | .ok => ([.createSTS sts, .patchSTS (name ++ "-bind9") sts], .ok ())
      | .exn e => ([.createSTS sts, .patchSTS (name ++ "-bind9") sts], .error e)
    else ([.createSTS sts], .ok ())
  | .exn e => ([.createSTS sts], .error e)

/-- Embedding of `create_bind9_services`: create only; an `ApiException`
with status 409 is ignored, any other status is re-raised
(`if e.status != 409: raise`); non-`ApiException` exceptions propagate. -/
def create_bind9_services (name ns uid : String) (createOut : CreateOutcome) :
    List EngineAction × Except PyExn Unit :=
  let svc := serviceArtifact name ns uid
  match createOut with
  | .ok => ([.createSvc svc], .ok ())
  | .exn (.apiException status msg) =>
    if status ≠ 409 then ([.createSvc svc], .error (.apiException status msg))
    else ([.createSvc svc], .ok ())
  | .exn e => ([.createSvc svc], .error e)

/-! ## Reconciler handlers (`operator/handlers/`) -/

deriving instance DecidableEq for Except

/-- Result of one handler invocation: the store operations it attempted,
and either the status object it returns to kopf or the kopf error it
raises. -/
structure HandlerResult (σ : Type) where
  actions : List EngineAction
  result : Except KopfError σ
deriving DecidableEq

/-- Status object returned by the instance handlers. -/
structure InstanceStatus where
  phase : String
  message : String
deriving DecidableEq

/-- Status object returned by the zone handler. -/
structure ZoneStatus where
  phase : String
  serial : Int
  zoneName : Option String
deriving DecidableEq

/-- Status object returned by the record handler. -/
structure RecordStatus where
  status : String
  recordType : String
deriving DecidableEq

/-- Embedding of `create_bind9_instance` (`operator/handlers/instance.py`,
create/resume event): generate config, upsert the config ConfigMap, upsert
the StatefulSet, create the Service; any exception becomes
`kopf.TemporaryError(..., delay=30)`. -/
def create_bind9_instance (spec : InstanceSpec) (name ns uid : String)
    (cmUps sfsUps : UpsertOutcomes) (svcOut : CreateOutcome) :
    HandlerResult InstanceStatus :=
  let config_data := generate_bind9_config spec name ns
  let r1 := create_configmap name ns config_data uid "config" cmUps
  match r1.2 with
  | .error e =>
    ⟨r1.1, .error (.temporaryError ("BIND9 creation failed: " ++ pyStrExn e) 30)⟩
  | .ok _ =>
    let r2 := create_bind9_statefulset spec name ns uid sfsUps
    match r2.2 with
    | .error e =>
      ⟨r1.1 ++ r2.1,
       .error (.temporaryError ("BIND9 creation failed: " ++ pyStrExn e) 30)⟩
    | .ok _ =>
      let r3 := create_bind9_services name ns uid svcOut
      match r3.2 with
      | .error e =>
        ⟨r1.1 ++ r2.1 ++ r3.1,
         .error (.temporaryError ("BIND9 creation failed: " ++ pyStrExn e) 30)⟩
      | .ok _ =>
        ⟨r1.1 ++ r2.1 ++ r3.1,
         .ok { phase := "Ready", message := "BIND9 instance created successfully" }⟩

/-- One entry of a kopf `diff` as the update handler reads it
(`for field, _, _ in diff`): the touched field and the old/new values. -/
structure DiffEntry where
  field : String
  old : String
  new : String
deriving DecidableEq

/-- Embedding of `update_bind9_instance` (update event): always upsert the
config ConfigMap; upsert the StatefulSet only when
`any(field in ["replicas", "image", "resources"] for field, _, _ in diff)`;
any exception becomes `kopf.TemporaryError(..., delay=30)`. -/
def update_bind9_instance (spec : InstanceSpec) (name ns uid : String)
    (diff : List DiffEntry) (cmUps sfsUps : UpsertOutcomes) :
    HandlerResult InstanceStatus :=
  let config_data := generate_bind9_config spec name ns
  let r1 := create_configmap name ns config_data uid "config" cmUps
  match r1.2 with
  | .error e =>
    ⟨r1.1, .error (.temporaryError ("Update failed: " ++ pyStrExn e) 30)⟩
  | .ok _ =>
    if diff.any fun d => ["replicas", "image", "resources"].contains d.field then
      let r2 := create_bind9_statefulset spec name ns uid sfsUps
      match r2.2 with
      | .error e =>
        ⟨r1.1 ++ r2.1,
         .error (.temporaryError ("Update failed: " ++ pyStrExn e) 30)⟩
      | .ok _ =>
        ⟨r1.1 ++ r2.1, .ok { phase := "Ready", message := "Updated successfully" }⟩
    else
      ⟨r1.1, .ok { phase := "Ready", message := "Updated successfully" }⟩

/-- Embedding of `manage_dns_zone` (`operator/handlers/zone.py`,
create/update/resume event): generate the zone file, upsert the
`<name>-zone` ConfigMap with the zone resource's own `name`/`uid`, reload
the referenced instance, and report the `Active` status whose serial is
the date-derived `nowSerial`; any exception becomes
`kopf.TemporaryError(..., delay=30)`. -/
def manage_dns_zone (spec : ZoneSpec) (name ns uid : String)
    (nowSerial : Int) (cmUps : UpsertOutcomes) : HandlerResult ZoneStatus :=
  let zone_name := spec.zoneName
  let zone_content := generate_zone_file spec (pyFStr zone_name) ns nowSerial
  let r1 := create_configmap name ns zone_content uid "zone" cmUps
  match r1.2 with
  | .error e =>
    ⟨r1.1, .error (.temporaryError ("Zone management failed: " ++ pyStrExn e) 30)⟩
  | .ok _ =>
    let bind_instance := spec.bind9InstanceRef.getD "default"
    ⟨r1.1 ++ [.reloadBind9 bind_instance ns],
     .ok { phase := "Active", serial := nowSerial, zoneName := zone_name }⟩

/-- Embedding of `handle_record` (`operator/handlers/records.py`, the
handler produced by `create_record_handler` for every record type):
validate, then apply the zone-file mutation (`update_zone_file`, whose
possible exception is the parameter `mutOut`); a `ValueError` anywhere in
the `try` block becomes `kopf.PermanentError`, any other exception becomes
`kopf.TemporaryError(..., delay=30)`, and success returns the active
status. -/
def handle_record (record_type : String) (spec : RecordSpec)
    (name ns : String) (mutOut : Except PyExn Unit) :
    HandlerResult RecordStatus :=
  match validate_dns_record record_type spec with
  | .error m => ⟨[], .error (.permanentError ("Invalid record: " ++ m))⟩
  | .ok _ =>
    let acts := [EngineAction.updateZoneFileOp spec.zone ns name record_type]
    match mutOut with
    | .ok _ => ⟨acts, .ok { status := "active", recordType := record_type }⟩
    | .error (.valueError m) =>
      ⟨acts, .error (.permanentError ("Invalid record: " ++ m))⟩
    | .error e =>
      ⟨acts, .error (.temporaryError ("Record management failed: " ++ pyStrExn e) 30)⟩

/-! ## Health daemon (`operator/utils/dns.py`, `monitor_bind9_health`) -/

/-- Embedding of `test_dns_functionality`: the DNS query either returns or
raises (`queryOut`); every exception is caught, logged and turned into
`False`, so the probe itself never raises. -/
def test_dns_functionality (queryOut : Except PyExn Unit) : Bool :=
  match queryOut with
  | .ok _ => true
  | .error _ => false

/-- What one iteration of the daemon's `while` loop observes: the Boolean
the probe returned, or an exception escaping the loop body. -/
inductive CycleEvent where
  | probe (ok : Bool)
  | raisedInBody (e : PyExn)
deriving DecidableEq

/-- Observable effect of one daemon cycle: what was logged and the
`stopped.wait` interval ending the cycle. -/
structure CycleEffect where
  loggedError : Bool
  loggedException : Bool
  wait : Int
deriving DecidableEq

/-- Embedding of one iteration of `monitor_bind9_health`'s loop: a probe
returning `False` is logged via `logger.error` and the cycle ends with
`stopped.wait(60)`; an exception escaping the body is logged via
`logger.exception` and the cycle ends with `stopped.wait(120)`. The
codomain allows a kopf error, but the catch-all `except` means none is
ever produced. -/
def monitor_cycle : CycleEvent → Except KopfError CycleEffect
  | .probe ok =>
    .ok { loggedError := !ok, loggedException := false, wait := 60 }
  | .raisedInBody _ =>
    .ok { loggedError := false, loggedException := true, wait := 120 }

/-- The daemon loop over a finite prefix of cycles (the external `stopped`
signal ends it): one effect per observed event, never an error. -/
def monitor_bind9_health (events : List CycleEvent) : List (Except KopfError CycleEffect) :=
  events.map monitor_cycle

/-- Wait interval of a cycle result, when the cycle did not raise. -/
def cycleWait : Except KopfError CycleEffect → Option Int
  | .ok eff => some eff.wait
  | .error _ => none

/-! ## Helper predicates for the theorems -/

/-- Test for a store operation on the Workload artifact (StatefulSet). -/
def isWorkloadOp : EngineAction → Bool
  | .createSTS _ => true
  | .patchSTS _ _ => true
  | _ => false

/-- A ConfigMap payload submitted (by create or by patch) somewhere in a
list of attempted store operations. -/
def cmPayloadIn (cm : ConfigMapArtifact) (acts : List EngineAction) : Prop :=
  EngineAction.createCM cm ∈ acts ∨ ∃ nm, EngineAction.patchCM nm cm ∈ acts

/-- Splitting a ConfigMap payload occurrence across a concatenation of
attempted operations. -/
theorem cmPayloadIn_append (cm : ConfigMapArtifact) (l1 l2 : List EngineAction) :
    cmPayloadIn cm (l1 ++ l2) → cmPayloadIn cm l1 ∨ cmPayloadIn cm l2 := by
  rintro (h | ⟨nm, h⟩)
  · rcases List.mem_append.1 h with h' | h'
    · exact Or.inl (Or.inl h')
    · exact Or.inr (Or.inl h')
  · rcases List.mem_append.1 h with h' | h'
    · exact Or.inl (Or.inr ⟨nm, h'⟩)
    · exact Or.inr (Or.inr ⟨nm, h'⟩)

/-- Every ConfigMap payload submitted by `create_configmap` is the one
built from its own arguments, whatever the store outcomes. -/
theorem create_configmap_payload (name ns data uid cm_type : String)
    (io : UpsertOutcomes) (cm : ConfigMapArtifact)
    (h : cmPayloadIn cm (create_configmap name ns data uid cm_type io).1) :
    cm = configmapArtifact name ns data uid cm_type := by
  obtain ⟨co, po⟩ := io
  cases co with
  | ok => simpa [create_configmap, cmPayloadIn] using h
  | exn e =>
    cases e with
    | apiException st m =>
      by_cases h409 : st = 409
      · cases po <;> simpa [create_configmap, cmPayloadIn, h409] using h
      · simpa [create_configmap, cmPayloadIn, h409] using h
    | valueError m => simpa [create_configmap, cmPayloadIn] using h
    | otherError m => simpa [create_configmap, cmPayloadIn] using h

/-- The StatefulSet applier submits no ConfigMap payload. -/
theorem create_statefulset_no_cm_payload (spec : InstanceSpec)
    (name ns uid : String) (io : UpsertOutcomes) (cm : ConfigMapArtifact) :
    ¬ cmPayloadIn cm (create_bind9_statefulset spec name ns uid io).1 := by
  obtain ⟨co, po⟩ := io
  cases co with
  | ok => simp [create_bind9_statefulset, cmPayloadIn]
  | exn e =>
    cases e with
    | apiException st m =>
      by_cases h409 : st = 409
      · cases po <;> simp [create_bind9_statefulset, cmPayloadIn, h409]
      · simp [create_bind9_statefulset, cmPayloadIn, h409]
    | valueError m => simp [create_bind9_statefulset, cmPayloadIn]
    | otherError m => simp [create_bind9_statefulset, cmPayloadIn]

/-- The Service applier submits no ConfigMap payload. -/
theorem create_services_no_cm_payload (name ns uid : String)
    (out : CreateOutcome) (cm : ConfigMapArtifact) :
    ¬ cmPayloadIn cm (create_bind9_services name ns uid out).1 := by
  cases out with
  | ok => simp [create_bind9_services, cmPayloadIn]
  | exn e =>
    cases e with
    | apiException st m =>
      by_cases h409 : st = 409
      · simp [create_bind9_services, cmPayloadIn, h409]
      · simp [create_bind9_services, cmPayloadIn, h409]
    | valueError m => simp [create_bind9_services, cmPayloadIn]
    | otherError m => simp [create_bind9_services, cmPayloadIn]

/-- Strings ending in different characters differ: no `<x>-config` name
is a `<y>-zones` name. -/
theorem append_config_ne_append_zones (x y : String) :
    x ++ "-config" ≠ y ++ "-zones" := by
  intro h
  have h2 := congrArg (fun s : String => s.data.getLast?) h
  simp only [String.data_append, List.getLast?_append] at h2
  have hc : ("-config" : String).data.getLast? = some 'g' := rfl
  have hz : ("-zones" : String).data.getLast? = some 's' := rfl
  rw [hc, hz] at h2
  simp [Option.or] at h2

/-- No `<x>-zone` name is a `<y>-zones` name. -/
theorem append_zone_ne_append_zones (x y : String) :
    x ++ "-zone" ≠ y ++ "-zones" := by
  intro h
  have h2 := congrArg (fun s : String => s.data.getLast?) h
  simp only [String.data_append, List.getLast?_append] at h2
  have hc : ("-zone" : String).data.getLast? = some 'e' := rfl
  have hz : ("-zones" : String).data.getLast? = some 's' := rfl
  rw [hc, hz] at h2
  simp [Option.or] at h2

/-! ## Claim theorems -/

/-- C1: the A-record validator is claimed to accept exactly the specs
whose `ipv4Address` matches IPv4 dotted-quad syntax, with
`999.999.999.999` rejected. Evaluating the code: the regex
`^(\d{1,3}\.){3}\d{1,3}$` places no upper bound on the octets, so
`{ipv4Address:"999.999.999.999"}` is accepted (no `ValueError`), while
`192.0.2.1` is accepted and an absent field is rejected. This contradicts
the claim and the repository's own test `test_invalid_a_record`. -/
theorem C1_a_record_999_accepted :
    validate_dns_record "A" { ipv4Address := some "999.999.999.999" } = .ok () ∧
    reMatchIpv4 "999.999.999.999" = true ∧
    validate_dns_record "A" { ipv4Address := some "192.0.2.1" } = .ok () ∧
    validate_dns_record "A" { } = .error "Invalid IPv4 address: None" ∧
    validate_dns_record "A" { ipv4Address := some "not-an-ip" } =
      .error "Invalid IPv4 address: not-an-ip" :=
  ⟨rfl, rfl, rfl, rfl, rfl⟩

/-- C2 counterexample: the zone-file synthesizer is not deterministic when
`soaRecord.serial` is absent. `generate_zone_file` defaults the serial to
`int(datetime.now().strftime("%Y%m%d01"))`, modelled by the explicit
clock parameter; two reconciliations of the byte-identical empty spec on
different dates produce different zone files. -/
theorem C2_zone_file_differs_when_serial_absent :
    generate_zone_file { } "example.com" "default" 2024010101 ≠
    generate_zone_file { } "example.com" "default" 2024010201 := by
  decide

/-- C2 amended: `generate_zone_file` is a pure function of the spec and
the clock, and whenever the spec carries an explicit `soaRecord.serial`
the clock is unused, so two calls with the same unchanged spec produce
byte-identical text; `generate_bind9_config` takes no clock input at all.
Only an absent serial makes the output time-dependent. -/
theorem C2_zone_file_deterministic_when_serial_present (spec : ZoneSpec)
    (zone_name ns : String) (s : Int)
    (h : (spec.soaRecord.getD {}).serial = some s) (t1 t2 : Int) :
    generate_zone_file spec zone_name ns t1 =
    generate_zone_file spec zone_name ns t2 := by
  simp [generate_zone_file, h]

/-- C2 witness: a concrete spec with an explicit serial yields the same
zone file at two different clock values. -/
theorem C2_zone_file_deterministic_witness :
    (((({ soaRecord := some { serial := some 2024010101 } } : ZoneSpec)).soaRecord.getD
        {}).serial = some 2024010101) ∧
    generate_zone_file { soaRecord := some { serial := some 2024010101 } }
        "example.com" "default" 1 =
      generate_zone_file { soaRecord := some { serial := some 2024010101 } }
        "example.com" "default" 2 :=
  ⟨rfl, C2_zone_file_deterministic_when_serial_present
    { soaRecord := some { serial := some 2024010101 } } "example.com" "default"
    2024010101 rfl 1 2⟩

/-- C7: every record type with no registered check passes validation
trivially, and exactly the types A, AAAA, CNAME and MX have registered
checks in the `validators` dict. -/
theorem C7_unregistered_types_pass (record_type : String)
    (h : record_type ∉ (["A", "AAAA", "CNAME", "MX"] : List String))
    (spec : RecordSpec) :
    validate_dns_record record_type spec = .ok () ∧
    validators record_type = none ∧
    (∀ rt : String, (validators rt).isSome ↔
      rt ∈ (["A", "AAAA", "CNAME", "MX"] : List String)) := by
  simp only [List.mem_cons, List.mem_singleton, not_or] at h
  obtain ⟨h1, h2, h3, h4⟩ := h
  refine ⟨?_, ?_, ?_⟩
  · simp [validate_dns_record, validators, h1, h2, h3, h4]
  · simp [validators, h1, h2, h3, h4]
  · intro rt
    by_cases e1 : rt = "A" <;> by_cases e2 : rt = "AAAA" <;>
      by_cases e3 : rt = "CNAME" <;> by_cases e4 : rt = "MX" <;>
      simp [validators, e1, e2, e3, e4]

/-- C7 witness: TXT has no registered check, and an arbitrary TXT spec
passes validation. -/
theorem C7_unregistered_types_pass_witness :
    ("TXT" : String) ∉ (["A", "AAAA", "CNAME", "MX"] : List String) ∧
    validate_dns_record "TXT" { } = .ok () :=
  ⟨by decide, (C7_unregistered_types_pass "TXT" (by decide) { }).1⟩

/-- C9 counterexample: a probe that reports failure
(`test_dns_functionality` returns `False` after its DNS query raised) is
logged and the cycle ends with `stopped.wait(60)`, not the claimed
120-time-unit interval; the 120 wait is reserved for an exception escaping
the loop body. -/
theorem C9_probe_failure_waits_60_not_120 :
    monitor_cycle
        (.probe (test_dns_functionality (.error (.otherError "DNS test failed")))) =
      .ok { loggedError := true, loggedException := false, wait := 60 } ∧
    cycleWait
        (monitor_cycle
          (.probe (test_dns_functionality (.error (.otherError "DNS test failed"))))) ≠
      some 120 :=
  ⟨rfl, by decide⟩

/-- C9 amended: the daemon probes on a 60-time-unit cycle; a probe that
merely reports failure is logged via `logger.error` and the next wait is
still 60; only an exception escaping the loop body widens the next wait to
120 (after `logger.exception`); and no cycle ever raises a resource-level
error — `test_dns_functionality` swallows every exception of the query,
and the loop body's catch-all swallows the rest. -/
theorem C9_probe_cycle_intervals (q : Except PyExn Unit) (e : PyExn) :
    monitor_cycle (.probe (test_dns_functionality q)) =
      .ok { loggedError := !(test_dns_functionality q),
            loggedException := false, wait := 60 } ∧
    monitor_cycle (.raisedInBody e) =
      .ok { loggedError := false, loggedException := true, wait := 120 } ∧
    (∀ ev : CycleEvent, ∃ eff, monitor_cycle ev = .ok eff) ∧
    (∀ events : List CycleEvent,
      ∀ r ∈ monitor_bind9_health events, ∃ eff, r = .ok eff) := by
  refine ⟨rfl, rfl, ?_, ?_⟩
  · intro ev; cases ev <;> exact ⟨_, rfl⟩
  · intro events r hr
    simp only [monitor_bind9_health, List.mem_map] at hr
    obtain ⟨ev, _, rfl⟩ := hr
    cases ev <;> exact ⟨_, rfl⟩

/-- C8: `generate_bind9_config` on the spec
`{config:{recursion:false, allowQuery:["any"], allowTransfer:["none"]}}`
and name `test-instance` yields text containing the substrings
`test-instance`, `recursion no` and `allow-query`; and a config whose
`allowQuery` and `recursion` keys are absent produces the same output as
one with `allowQuery=["any"]` (allow all) and `recursion=false`
(disabled). -/
theorem C8_config_substrings_and_defaults :
    containsSubstring
        (generate_bind9_config
          { config := some { recursion := some false, allowQuery := some ["any"], allowTransfer := some ["none"] } } "test-instance" "default")
        "test-instance" = true ∧
    containsSubstring
        (generate_bind9_config
          { config := some { recursion := some false, allowQuery := some ["any"], allowTransfer := some ["none"] } } "test-instance" "default")
        "recursion no" = true ∧
    containsSubstring
        (generate_bind9_config
          { config := some { recursion := some false, allowQuery := some ["any"], allowTransfer := some ["none"] } } "test-instance" "default")
        "allow-query" = true ∧
    (∀ cfg : InstanceConfig, cfg.allowQuery = none → cfg.recursion = none →
      ∀ name ns : String,
        generate_bind9_config { config := some cfg } name ns =
        generate_bind9_config
          { config := some
              { cfg with allowQuery := some ["any"], recursion := some false } }
          name ns) := by
  refine ⟨by decide, by decide, by decide, ?_⟩
  intro cfg h1 h2 name ns
  simp [generate_bind9_config, h1, h2]

/-- C8 witness: the defaults conjunct applied to the concrete config that
only sets `allowTransfer`. -/
theorem C8_config_defaults_witness :
    (({ allowTransfer := some ["none"] } : InstanceConfig).allowQuery = none) ∧
    (({ allowTransfer := some ["none"] } : InstanceConfig).recursion = none) ∧
    generate_bind9_config
        { config := some { allowTransfer := some ["none"] } } "i" "d" =
      generate_bind9_config
        { config := some { allowQuery := some ["any"], allowTransfer := some ["none"], recursion := some false } } "i" "d" :=
  ⟨rfl, rfl,
    C8_config_substrings_and_defaults.2.2.2
      { allowTransfer := some ["none"] } rfl rfl "i" "d"⟩

/-- C3: the record handler classifies a validation failure as
`kopf.PermanentError` (applying no mutation), classifies every
non-`ValueError` exception raised while applying the zone-file mutation as
`kopf.TemporaryError` with delay 30, and on success returns the active
status. -/
theorem C3_record_failure_classification (record_type : String)
    (spec : RecordSpec) (name ns : String) (mutOut : Except PyExn Unit) :
    (∀ m, validate_dns_record record_type spec = .error m →
      handle_record record_type spec name ns mutOut =
        ⟨[], .error (.permanentError ("Invalid record: " ++ m))⟩) ∧
    (validate_dns_record record_type spec = .ok () →
      ∀ e : PyExn, mutOut = .error e → (∀ m, e ≠ .valueError m) →
        (handle_record record_type spec name ns mutOut).result =
          .error (.temporaryError ("Record management failed: " ++ pyStrExn e) 30)) ∧
    (validate_dns_record record_type spec = .ok () → mutOut = .ok () →
      (handle_record record_type spec name ns mutOut).result =
        .ok { status := "active", recordType := record_type }) := by
  refine ⟨?_, ?_, ?_⟩
  · intro m hm
    simp [handle_record, hm]
  · intro hv e he hne
    subst he
    cases e with
    | apiException st m => simp [handle_record, hv, pyStrExn]
    | valueError m => exact absurd rfl (hne m)
    | otherError m => simp [handle_record, hv, pyStrExn]
  · intro hv hm
    subst hm
    simp [handle_record, hv]

/-- C3 witness: a failed MX validation is Permanent, a store error while
mutating the zone file is Temporary with delay 30, and success reports the
active status. -/
theorem C3_record_failure_classification_witness :
    handle_record "MX" { priority := some 10 } "rec" "default" (.ok ()) =
      ⟨[], .error (.permanentError
        ("Invalid record: " ++ "Priority and mailServer required for MX record"))⟩ ∧
    (handle_record "MX"
        { priority := some 10, mailServer := some "mail.example.com" }
        "rec" "default" (.error (.otherError "store down"))).result =
      .error (.temporaryError ("Record management failed: " ++ "store down") 30) ∧
    (handle_record "MX"
        { priority := some 10, mailServer := some "mail.example.com" }
        "rec" "default" (.ok ())).result =
      .ok { status := "active", recordType := "MX" } :=
  ⟨(C3_record_failure_classification "MX" { priority := some 10 } "rec" "default"
      (.ok ())).1 "Priority and mailServer required for MX record" rfl,
   (C3_record_failure_classification "MX"
      { priority := some 10, mailServer := some "mail.example.com" } "rec" "default"
      (.error (.otherError "store down"))).2.1 rfl (.otherError "store down") rfl
      (fun m h => PyExn.noConfusion h),
   (C3_record_failure_classification "MX"
      { priority := some 10, mailServer := some "mail.example.com" } "rec" "default"
      (.ok ())).2.2 rfl rfl⟩

/-- C4: on an Instance update whose store calls succeed, the handler
reports Ready, the Config artifact is always re-applied, and a Workload
(StatefulSet) store operation is attempted exactly when the diff touches
`replicas`, `image` or `resources`. -/
theorem C4_update_workload_frame (spec : InstanceSpec) (name ns uid : String)
    (diff : List DiffEntry) :
    (update_bind9_instance spec name ns uid diff { } { }).result =
      .ok { phase := "Ready", message := "Updated successfully" } ∧
    ((∃ a ∈ (update_bind9_instance spec name ns uid diff { } { }).actions,
        isWorkloadOp a = true) ↔
      (diff.any fun d => ["replicas", "image", "resources"].contains d.field) = true) ∧
    EngineAction.createCM
        (configmapArtifact name ns (generate_bind9_config spec name ns) uid "config") ∈
      (update_bind9_instance spec name ns uid diff { } { }).actions := by
  by_cases hd :
      ∃ x ∈ diff, x.field = "replicas" ∨ x.field = "image" ∨ x.field = "resources"
  · simp [update_bind9_instance, create_configmap, create_bind9_statefulset, hd,
      isWorkloadOp]
  · simp [update_bind9_instance, create_configmap, create_bind9_statefulset, hd,
      isWorkloadOp]

/-- C5: evaluating the applier at concrete store outcomes. A non-conflict
`ApiException` (status 500) during the ConfigMap or StatefulSet create is
swallowed — the function returns normally with no patch and no error
surfaced to the caller — while a 409 conflict is upserted into a patch of
the same identity; only the Service applier re-raises a non-conflict
`ApiException`, and it leaves the artifact unchanged on 409. The swallow
contradicts the claim that every non-conflict error is surfaced. -/
theorem C5_applier_upsert_and_swallowed_error :
    create_configmap "inst" "default" "cfg-data" "uid-1" "config"
        { createOut := .exn (.apiException 500 "Internal Server Error") } =
      ([.createCM (configmapArtifact "inst" "default" "cfg-data" "uid-1" "config")],
        .ok ()) ∧
    create_bind9_statefulset { } "inst" "default" "uid-1"
        { createOut := .exn (.apiException 500 "Internal Server Error") } =
      ([.createSTS (statefulsetArtifact { } "inst" "default" "uid-1")], .ok ()) ∧
    create_configmap "inst" "default" "cfg-data" "uid-1" "config"
        { createOut := .exn (.apiException 409 "Conflict") } =
      ([.createCM (configmapArtifact "inst" "default" "cfg-data" "uid-1" "config"),
        .patchCM ("inst" ++ "-" ++ "config")
          (configmapArtifact "inst" "default" "cfg-data" "uid-1" "config")],
        .ok ()) ∧
    (create_bind9_services "inst" "default" "uid-1"
        (.exn (.apiException 409 "Conflict"))).2 = .ok () ∧
    (create_bind9_services "inst" "default" "uid-1"
        (.exn (.apiException 500 "Internal Server Error"))).2 =
      .error (.apiException 500 "Internal Server Error") := by
  refine ⟨?_, ?_, ?_, ?_, ?_⟩ <;> decide

/-- C6: every artifact payload the applier submits (ConfigMap,
StatefulSet, Service) carries an owner reference whose `name` and `uid`
are those of the resource passed in as its cause, and in particular every
ConfigMap payload submitted during Zone reconciliation carries the Zone
resource's own name and uid. -/
theorem C6_artifacts_carry_owner_identity :
    (∀ name ns data uid cm_type : String,
      ∃ r ∈ (configmapArtifact name ns data uid cm_type).ownerReferences,
        r.name = name ∧ r.uid = uid) ∧
    (∀ (spec : InstanceSpec) (name ns uid : String),
      ∃ r ∈ (statefulsetArtifact spec name ns uid).ownerReferences,
        r.name = name ∧ r.uid = uid) ∧
    (∀ name ns uid : String,
      ∃ r ∈ (serviceArtifact name ns uid).ownerReferences,
        r.name = name ∧ r.uid = uid) ∧
    (∀ (spec : ZoneSpec) (name ns uid : String) (nowSerial : Int)
        (io : UpsertOutcomes) (cm : ConfigMapArtifact),
      cmPayloadIn cm (manage_dns_zone spec name ns uid nowSerial io).actions →
      ∃ r ∈ cm.ownerReferences, r.name = name ∧ r.uid = uid) := by
  refine ⟨?_, ?_, ?_, ?_⟩
  · intro name ns data uid cm_type
    exact ⟨_, List.mem_singleton_self _, rfl, rfl⟩
  · intro spec name ns uid
    exact ⟨_, List.mem_singleton_self _, rfl, rfl⟩
  · intro name ns uid
    exact ⟨_, List.mem_singleton_self _, rfl, rfl⟩
  · intro spec name ns uid nowSerial io cm hcm
    obtain ⟨co, po⟩ := io
    have hc : cm = configmapArtifact name ns
        (generate_zone_file spec (pyFStr spec.zoneName) ns nowSerial) uid "zone" := by
      cases co with
      | ok => simpa [manage_dns_zone, create_configmap, cmPayloadIn] using hcm
      | exn e =>
        cases e with
        | apiException st m =>
          by_cases h409 : st = 409
          · cases po with
            | ok =>
              simpa [manage_dns_zone, create_configmap, cmPayloadIn, h409] using hcm
            | exn e2 =>
              simpa [manage_dns_zone, create_configmap, cmPayloadIn, h409] using hcm
          · simpa [manage_dns_zone, create_configmap, cmPayloadIn, h409] using hcm
        | valueError m =>
          simpa [manage_dns_zone, create_configmap, cmPayloadIn] using hcm
        | otherError m =>
          simpa [manage_dns_zone, create_configmap, cmPayloadIn] using hcm
    subst hc
    exact ⟨_, List.mem_singleton_self _, rfl, rfl⟩

/-- C6 witness: the ConfigMap payload submitted by a concrete Zone
reconciliation carries an owner reference naming the Zone's name and uid. -/
theorem C6_artifacts_carry_owner_identity_witness :
    cmPayloadIn
        (configmapArtifact "zone-a" "default"
          (generate_zone_file { } (pyFStr (none : Option String)) "default" 7)
          "zone-uid" "zone")
        (manage_dns_zone { } "zone-a" "default" "zone-uid" 7 { }).actions ∧
    ∃ r ∈ (configmapArtifact "zone-a" "default"
        (generate_zone_file { } (pyFStr (none : Option String)) "default" 7)
        "zone-uid" "zone").ownerReferences,
      r.name = "zone-a" ∧ r.uid = "zone-uid" :=
  ⟨Or.inl (List.mem_cons_self _ _),
   C6_artifacts_carry_owner_identity.2.2.2 { } "zone-a" "default" "zone-uid" 7 { } _
     (Or.inl (List.mem_cons_self _ _))⟩

/-- C10: the Workload artifact for instance `name` mounts its zones volume
from a ConfigMap named exactly `name ++ "-zones"`, while every ConfigMap
payload the engine's handlers ever submit is named `<owner>-config`
(Instance create/update) or `<owner>-zone` (Zone reconciliation), and no
string of either form equals any `<k>-zones` name. -/
theorem C10_zones_volume_never_created :
    (∀ (spec : InstanceSpec) (name ns uid : String),
      (statefulsetArtifact spec name ns uid).volumes =
        [{ name := "config", configMapName := name ++ "-config" },
         { name := "zones", configMapName := name ++ "-zones" }]) ∧
    (∀ (spec : InstanceSpec) (name ns uid : String) (cmUps sfsUps : UpsertOutcomes)
        (svcOut : CreateOutcome) (cm : ConfigMapArtifact),
      cmPayloadIn cm (create_bind9_instance spec name ns uid cmUps sfsUps svcOut).actions →
      cm.name = name ++ "-config") ∧
    (∀ (spec : InstanceSpec) (name ns uid : String) (diff : List DiffEntry)
        (cmUps sfsUps : UpsertOutcomes) (cm : ConfigMapArtifact),
      cmPayloadIn cm (update_bind9_instance spec name ns uid diff cmUps sfsUps).actions →
      cm.name = name ++ "-config") ∧
    (∀ (spec : ZoneSpec) (name ns uid : String) (nowSerial : Int)
        (io : UpsertOutcomes) (cm : ConfigMapArtifact),
      cmPayloadIn cm (manage_dns_zone spec name ns uid nowSerial io).actions →
      cm.name = name ++ "-zone") ∧
    (∀ x y : String,
      x ++ "-config" ≠ y ++ "-zones" ∧ x ++ "-zone" ≠ y ++ "-zones") := by
  have hassoc : ∀ a : String, a ++ "-" ++ "config" = a ++ "-config" := by
    intro a; rw [String.append_assoc]; exact congrArg (a ++ ·) rfl
  have hassocz : ∀ a : String, a ++ "-" ++ "zone" = a ++ "-zone" := by
    intro a; rw [String.append_assoc]; exact congrArg (a ++ ·) rfl
  refine ⟨?_, ?_, ?_, ?_, ?_⟩
  · intro spec name ns uid
    rfl
  · intro spec name ns uid cmUps sfsUps svcOut cm hcm
    rw [← hassoc name]
    unfold create_bind9_instance at hcm
    dsimp only at hcm
    have hsts := create_statefulset_no_cm_payload spec name ns uid sfsUps cm
    have hsvc := create_services_no_cm_payload name ns uid svcOut cm
    cases h1 : (create_configmap name ns (generate_bind9_config spec name ns)
        uid "config" cmUps).2 with
    | error e1 =>
      rw [h1] at hcm
      dsimp only at hcm
      exact congrArg ConfigMapArtifact.name
        (create_configmap_payload _ _ _ _ _ _ _ hcm)
    | ok u1 =>
      rw [h1] at hcm
      cases h2 : (create_bind9_statefulset spec name ns uid sfsUps).2 with
      | error e2 =>
        rw [h2] at hcm
        dsimp only at hcm
        rcases cmPayloadIn_append cm _ _ hcm with h | h
        · exact congrArg ConfigMapArtifact.name
            (create_configmap_payload _ _ _ _ _ _ _ h)
        · exact absurd h hsts
      | ok u2 =>
        rw [h2] at hcm
        cases h3 : (create_bind9_services name ns uid svcOut).2 with
        | error e3 =>
          rw [h3] at hcm
          dsimp only at hcm
          rcases cmPayloadIn_append cm _ _ hcm with h | h
          · rcases cmPayloadIn_append cm _ _ h with h2' | h2'
            · exact congrArg ConfigMapArtifact.name
                (create_configmap_payload _ _ _ _ _ _ _ h2')
            · exact absurd h2' hsts
          · exact absurd h hsvc
        | ok u3 =>
          rw [h3] at hcm
          dsimp only at hcm
          rcases cmPayloadIn_append cm _ _ hcm with h | h
          · rcases cmPayloadIn_append cm _ _ h with h2' | h2'
            · exact congrArg ConfigMapArtifact.name
                (create_configmap_payload _ _ _ _ _ _ _ h2')
            · exact absurd h2' hsts
          · exact absurd h hsvc
  · intro spec name ns uid diff cmUps sfsUps cm hcm
    rw [← hassoc name]
    unfold update_bind9_instance at hcm
    dsimp only at hcm
    have hsts := create_statefulset_no_cm_payload spec name ns uid sfsUps cm
    cases h1 : (create_configmap name ns (generate_bind9_config spec name ns)
        uid "config" cmUps).2 with
    | error e1 =>
      rw [h1] at hcm
      dsimp only at hcm
      exact congrArg ConfigMapArtifact.name
        (create_configmap_payload _ _ _ _ _ _ _ hcm)
    | ok u1 =>
      rw [h1] at hcm
      by_cases hd :
          ∃ x ∈ diff, x.field = "replicas" ∨ x.field = "image" ∨ x.field = "resources"
      · rw [if_pos (by simpa using hd)] at hcm
        cases h2 : (create_bind9_statefulset spec name ns uid sfsUps).2 with
        | error e2 =>
          rw [h2] at hcm
          dsimp only at hcm
          rcases cmPayloadIn_append cm _ _ hcm with h | h
          · exact congrArg ConfigMapArtifact.name
              (create_configmap_payload _ _ _ _ _ _ _ h)
          · exact absurd h hsts
        | ok u2 =>
          rw [h2] at hcm
          dsimp only at hcm
          rcases cmPayloadIn_append cm _ _ hcm with h | h
          · exact congrArg ConfigMapArtifact.name
              (create_configmap_payload _ _ _ _ _ _ _ h)
          · exact absurd h hsts
      · rw [if_neg (by simpa using hd)] at hcm
        dsimp only at hcm
        exact congrArg ConfigMapArtifact.name
          (create_configmap_payload _ _ _ _ _ _ _ hcm)
  · intro spec name ns uid nowSerial io cm hcm
    rw [← hassocz name]
    unfold manage_dns_zone at hcm
    dsimp only at hcm
    cases h1 : (create_configmap name ns
        (generate_zone_file spec (pyFStr spec.zoneName) ns nowSerial)
        uid "zone" io).2 with
    | error e1 =>
      rw [h1] at hcm
      dsimp only at hcm
      exact congrArg ConfigMapArtifact.name
        (create_configmap_payload _ _ _ _ _ _ _ hcm)
    | ok u1 =>
      rw [h1] at hcm
      dsimp only at hcm
      rcases cmPayloadIn_append cm _ _ hcm with h | h
      · exact congrArg ConfigMapArtifact.name
          (create_configmap_payload _ _ _ _ _ _ _ h)
      · simp [cmPayloadIn] at h
  · intro x y
    exact ⟨append_config_ne_append_zones x y, append_zone_ne_append_zones x y⟩

/-- C10 witness: a concrete Zone reconciliation submits the ConfigMap
`zone-a-zone`, and that name differs from every `-zones` name the
Workload mounts. -/
theorem C10_zones_volume_never_created_witness :
    cmPayloadIn
        (configmapArtifact "zone-a" "default"
          (generate_zone_file { } (pyFStr (none : Option String)) "default" 9)
          "u1" "zone")
        (manage_dns_zone { } "zone-a" "default" "u1" 9 { }).actions ∧
    (configmapArtifact "zone-a" "default"
        (generate_zone_file { } (pyFStr (none : Option String)) "default" 9)
        "u1" "zone").name = "zone-a" ++ "-zone" ∧
    ("zone-a" : String) ++ "-zone" ≠ "inst" ++ "-zones" :=
  ⟨Or.inl (List.mem_cons_self _ _),
   C10_zones_volume_never_created.2.2.2.1 { } "zone-a" "default" "u1" 9 { } _
     (Or.inl (List.mem_cons_self _ _)),
   (C10_zones_volume_never_created.2.2.2.2 "zone-a" "inst").2⟩

end Bindy
